import Mathlib

/-!
# Verification of the financial-statement ingestion pipeline

A shallow embedding, in Lean 4, of the data model and operations of
`scripts/financial_scraper_v2.py` (the `kap-bist-data` repository):

* quarter enumeration and chunking (`IsYatirimFinancialAPI._generate_quarters`,
  the chunking loop of `IsYatirimFinancialAPI.fetch_financials`);
* chunk merging (`IsYatirimFinancialAPI._merge_chunks`: successive outer joins
  on the item-identifying columns, then dropping all-null columns);
* the wide-to-long reshape (`FinancialDataProcessor.transform_to_long_format`)
  with period-label parsing and statement-type classification
  (`FinancialDataProcessor._determine_statement_type`);
* the staged upsert (`FinancialDataProcessor.upsert_financial_data`), modelled
  as a state transition over an explicit durable store plus staging area;
* the per-company processing loop of `main`.

Statement values travel through the pipeline opaquely (they are copied, never
computed with), so they are embedded as `Int`; timestamps (`NOW()`) are `Nat`
instants supplied explicitly.  Dataframes are embedded as explicit column-label
lists plus row lists; cells are `Option Int` (`none` = null/NaN).
-/

/-- `IsYatirimFinancialAPI.QUARTERS`: the quarter-end months. -/
def QUARTERS : List Int := [3, 6, 9, 12]

/-- `IsYatirimFinancialAPI._generate_quarters`: all `(year, quarter_month)`
pairs for `year` in `range(start_year, end_year + 1)`, months from `QUARTERS`,
in loop order (years outer, months inner). -/
def generate_quarters (start_year end_year : Int) : List (Int × Int) :=
  ((List.range (end_year + 1 - start_year).toNat).map
      (fun i => start_year + Int.ofNat i)).flatMap
    (fun year => QUARTERS.map (fun month => (year, month)))

/-- The chunking loop of `fetch_financials`:
`for chunk_start in range(0, len(all_quarters), 4): all_quarters[chunk_start:chunk_start+4]` —
consecutive slices of at most 4 elements. -/
def chunksOf4 (l : List α) : List (List α) :=
  if l.isEmpty then [] else l.take 4 :: chunksOf4 (l.drop 4)
termination_by l.length
decreasing_by
  cases l with
  | nil => simp_all
  | cons a l => simp [List.length_drop]; omega

/-- The list of chunk requests `fetch_financials` issues for an inclusive year
range: one `_fetch_chunk` call per slice of at most 4 quarters. -/
def fetch_chunk_requests (start_year end_year : Int) : List (List (Int × Int)) :=
  chunksOf4 (generate_quarters start_year end_year)

/-- Chronological order on `(year, quarter-month)` periods: earlier year, or
same year and earlier quarter-end month. -/
def periodBefore (p q : Int × Int) : Prop :=
  p.1 < q.1 ∨ (p.1 = q.1 ∧ p.2 < q.2)

/-- Python's `str.split(sep)` for a one-character separator, over the character
list of a string: `"a/b//c"` splits to `["a","b","","c"]`, the empty string to
`[""]`. -/
def splitCharsOn (sep : Char) : List Char → List (List Char)
  | [] => [[]]
  | c :: cs =>
    let rest := splitCharsOn sep cs
    if c = sep then [] :: rest
    else
      match rest with
      | [] => [[c]]
      | h :: t => (c :: h) :: t

/-- Decimal digit run parsed to a `Nat`; `none` on the empty run or any
non-digit character. -/
def parseNatChars (cs : List Char) : Option Nat :=
  if cs.isEmpty then none
  else cs.foldl (fun acc c => acc.bind (fun n =>
    if c.isDigit then some (10 * n + (c.toNat - 48)) else none)) (some 0)

/-- Python's `int(str)` / pandas `.astype(int)` on a string column entry, for
the alphabet the pipeline produces (optional minus sign, then digits): `none`
where `astype(int)` would raise. -/
def parseIntChars (cs : List Char) : Option Int :=
  if cs.head? = some '-' then (parseNatChars cs.tail).map (fun n => -(n : Int))
  else (parseNatChars cs).map (fun n => (n : Int))

/-- Period-label parsing inside `transform_to_long_format`:
`period_split = df_long["period"].str.split("/", expand=True)`,
`year = period_split[0].astype(int)`, `month = period_split[1].astype(int)`.
Returns `none` when a required part is missing or non-numeric (in which case
`astype(int)` raises in the source). -/
def parsePeriod (label : String) : Option (Int × Int) :=
  let parts := splitCharsOn '/' label.data
  match (parts.get? 0).bind parseIntChars, (parts.get? 1).bind parseIntChars with
  | some y, some m => some (y, m)
  | _, _ => none

/-- The `(year, quarter)` pair the transformer derives from a period label:
`df_long["quarter"] = (month // 3)` — Python floor division. -/
def periodYearQuarter (label : String) : Option (Int × Int) :=
  (parsePeriod label).map (fun p => (p.1, Int.fdiv p.2 3))

/-- `FinancialDataProcessor._determine_statement_type`: classify an item code by
its first character; the empty code and unmapped characters default to
`INCOME_STATEMENT`. -/
def determine_statement_type (item_code : String) : String :=
  if item_code = "" then "INCOME_STATEMENT"
  else if item_code.front = '1' then "BALANCE_SHEET_ASSETS"
  else if item_code.front = '2' then "BALANCE_SHEET_LIABILITIES"
  else if item_code.front = '3' then "INCOME_STATEMENT"
  else if item_code.front = '4' then "CASH_FLOW"
  else if item_code.front = 'A' then "BALANCE_SHEET_ASSETS"
  else "INCOME_STATEMENT"

/-- One row of a wide-format statement table: the three item-identifying
columns (`itemCode`, `itemDescTr`, `itemDescEng`) plus one cell per non-id
column of the table (`none` = null). -/
structure WideRow where
  itemCode : String
  itemDescTr : String
  itemDescEng : String
  cells : List (Option Int)
deriving Repr, DecidableEq

/-- A wide-format statement table: `cols` are the labels of the non-id columns
(period columns such as `"2023/9"`), `rows` the item rows.  The three id
columns are structural and never null, so null-column checks range over
`cols` only. -/
structure WideTable where
  cols : List String
  rows : List WideRow
deriving Repr, DecidableEq

/-- The join key of `pd.merge(..., on=["itemCode", "itemDescTr", "itemDescEng"])`. -/
def WideRow.key (r : WideRow) : String × String × String :=
  (r.itemCode, r.itemDescTr, r.itemDescEng)

/-- First row of `t` with join key `k`, if any. -/
def findByKey (t : WideTable) (k : String × String × String) : Option WideRow :=
  t.rows.find? (fun r => r.key = k)

/-- One step of the merge loop of `_merge_chunks`:
`pd.merge(df_merged, df_chunk, on=["itemCode","itemDescTr","itemDescEng"], how="outer")`
for tables whose join keys are unique within each side.  Left rows keep their
order and gain the right side's cells (null-filled when the key is absent on
the right); unmatched right rows follow, null-filled on the left columns. -/
def outerMerge (t1 t2 : WideTable) : WideTable :=
  { cols := t1.cols ++ t2.cols
    rows :=
      t1.rows.map (fun r =>
        match findByKey t2 r.key with
        | some r2 => { r with cells := r.cells ++ r2.cells }
        | none => { r with cells := r.cells ++ List.replicate t2.cols.length none }) ++
      (t2.rows.filter (fun r => (findByKey t1 r.key).isNone)).map (fun r =>
        { r with cells := List.replicate t1.cols.length none ++ r.cells }) }

/-- Indices of the columns kept by the null-column drop of `_merge_chunks`
(`df_merged.columns[df_merged.isnull().all()]` are dropped): a column survives
iff some row has a non-null cell there. -/
def keptColIdxs (t : WideTable) : List Nat :=
  (List.range t.cols.length).filter
    (fun j => t.rows.any (fun r => (r.cells.getD j none).isSome))

/-- The null-column drop at the end of `_merge_chunks`:
`df_merged.drop(columns=df_merged.columns[df_merged.isnull().all()])`. -/
def dropNullCols (t : WideTable) : WideTable :=
  { cols := (keptColIdxs t).map (fun j => t.cols.getD j "")
    rows := t.rows.map
      (fun r => { r with cells := (keptColIdxs t).map (fun j => r.cells.getD j none) }) }

/-- `IsYatirimFinancialAPI._merge_chunks`: a single chunk is returned unchanged;
two or more chunks are outer-joined successively and then stripped of all-null
columns.  `fetch_financials` never calls it on an empty list (it raises first),
embedded as `none`. -/
def merge_chunks (dataframes : List WideTable) : Option WideTable :=
  match dataframes with
  | [] => none
  | [t] => some t
  | t :: ts => some (dropNullCols (ts.foldl outerMerge t))

/-- One melted observation row, as produced by
`df_wide.melt(id_vars=["itemCode","itemDescTr","itemDescEng"], value_vars=quarter_cols, var_name="period", value_name="value")`. -/
structure MeltRow where
  itemCode : String
  itemDescTr : String
  itemDescEng : String
  period : String
  value : Option Int
deriving Repr, DecidableEq

/-- Indices of the period-labeled ("quarter") columns of a wide table:
`[col for col in df_wide.columns if isinstance(col, str) and "/" in col]`.
The three id columns are structural in `WideTable` and never carry a slash. -/
def quarterColIdxs (t : WideTable) : List Nat :=
  (List.range t.cols.length).filter (fun j => (t.cols.getD j "").data.contains '/')

/-- The melted observation arising from the cell of item row `r` under the
table's `j`-th non-id column. -/
def toMeltRow (t : WideTable) (j : Nat) (r : WideRow) : MeltRow :=
  { itemCode := r.itemCode, itemDescTr := r.itemDescTr,
    itemDescEng := r.itemDescEng, period := t.cols.getD j "",
    value := r.cells.getD j none }

/-- The melt inside `transform_to_long_format`: one output row per
(value column, input row) pair, value columns outermost — pandas stacks the
melted frame one value column at a time. -/
def meltTable (t : WideTable) : List MeltRow :=
  (quarterColIdxs t).flatMap (fun j => t.rows.map (toMeltRow t j))

/-- One long-format row in database-schema order, after the final column
selection and the rename `itemDescTr → itemNameTR`, `itemDescEng → itemNameEN`. -/
structure LongRow where
  companyId : Int
  year : Int
  quarter : Int
  itemCode : String
  itemNameTR : String
  itemNameEN : String
  value : Option Int
  statementType : String
  financialGroup : String
  currency : String
deriving Repr, DecidableEq

/-- The per-row work `transform_to_long_format` does after the melt: parse the
period label into year and quarter, classify the statement type from the item
code, attach `companyId`, `financialGroup` and the literal currency `"TRY"`,
and rename the description columns. -/
def mkLongRow (company_id : Int) (financial_group : String) (m : MeltRow) : LongRow :=
  let yq := (periodYearQuarter m.period).getD (0, 0)
  { companyId := company_id, year := yq.1, quarter := yq.2,
    itemCode := m.itemCode, itemNameTR := m.itemDescTr, itemNameEN := m.itemDescEng,
    value := m.value, statementType := determine_statement_type m.itemCode,
    financialGroup := financial_group, currency := "TRY" }

/-- `FinancialDataProcessor.transform_to_long_format`.  No period-labeled
columns: return an empty frame.  Otherwise melt, derive year/quarter and
statement type, attach metadata, drop null-value rows, select and rename
columns.  `none` embeds the paths on which the source raises: an unparsable
period label makes `astype(int)` raise, and a melt with zero rows makes
`period_split[0]` raise (the split of an empty column yields no part columns);
neither path is reachable from `_merge_chunks` output.  `symbol` is only
logged. -/
def transform_to_long_format (df_wide : WideTable) (company_id : Int)
    (_symbol financial_group : String) : Option (List LongRow) :=
  if (quarterColIdxs df_wide).isEmpty then some []
  else if df_wide.rows.isEmpty then none
  else if (quarterColIdxs df_wide).all
      (fun j => (parsePeriod (df_wide.cols.getD j "")).isSome) then
    some (((meltTable df_wide).map (mkLongRow company_id financial_group)).filter
      (fun r => r.value.isSome))
  else none

/-- Spec-side enumeration for the bijection claim: the non-null cells sitting
under period-labeled columns, as (column index, item row) pairs, enumerated
column-major like the melt. -/
def specNonNullCells (t : WideTable) : List (Nat × WideRow) :=
  (quarterColIdxs t).flatMap (fun j =>
    (t.rows.filter (fun r => (r.cells.getD j none).isSome)).map (fun r => (j, r)))

/-- The long row that a given non-null wide cell gives rise to. -/
def specCellRow (t : WideTable) (company_id : Int) (financial_group : String)
    (c : Nat × WideRow) : LongRow :=
  mkLongRow company_id financial_group (toMeltRow t c.1 c.2)

/-- The result-assembly half of `fetch_financials`: each chunk request yields
either a dataframe or nothing (`none` covers an explicit failure flag, an empty
payload, and exhausted transport retries — the chunk loop catches the raised
exception and moves on).  Non-empty dataframes are collected; if none remain,
`ValueError("No financial data found for {symbol} ({financial_group})")` is
raised, otherwise the chunks are merged.  A chunk dataframe always carries the
three id columns, so pandas `df.empty` is `rows.isEmpty` here. -/
def fetch_financials (symbol financial_group : String)
    (chunk_results : List (Option WideTable)) : Except String WideTable :=
  let all_dataframes := (chunk_results.filterMap id).filter (fun t => !t.rows.isEmpty)
  if all_dataframes.isEmpty then
    .error ("No financial data found for " ++ symbol ++ " (" ++ financial_group ++ ")")
  else
    match merge_chunks all_dataframes with
    | some t => .ok t
    | none => .error ""

/-- The per-company loop of `main`: each company is processed inside a broad
`try/except`; a success bumps `success_count`, a failure appends
`(symbol, error)` to `failed_companies`, and the loop continues either way. -/
def process_companies (companies : List (Int × String))
    (run_company : Int → String → Except String Nat) :
    Nat × List (String × String) :=
  companies.foldl (fun acc c =>
    match run_company c.1 c.2 with
    | .ok _ => (acc.1 + 1, acc.2)
    | .error e => (acc.1, acc.2 ++ [(c.2, e)])) (0, [])

/-- One durable row of the `financial_statements` table. -/
structure DbRow where
  companyId : Int
  year : Int
  quarter : Int
  itemCode : String
  itemNameTR : String
  itemNameEN : String
  value : Option Int
  statementType : String
  financialGroup : String
  currency : String
  createdAt : Nat
  updatedAt : Nat
deriving Repr, DecidableEq

/-- The natural key `("companyId", year, quarter, "itemCode")` of a batch row. -/
def LongRow.natKey (r : LongRow) : Int × Int × Int × String :=
  (r.companyId, r.year, r.quarter, r.itemCode)

/-- The natural key of a durable row — the unique index `ON CONFLICT` targets. -/
def DbRow.natKey (r : DbRow) : Int × Int × Int × String :=
  (r.companyId, r.year, r.quarter, r.itemCode)

/-- The INSERT branch of the upsert statement: every column copied from the
staged row, `"createdAt"` and `"updatedAt"` both set to `NOW()`. -/
def insertRow (now : Nat) (r : LongRow) : DbRow :=
  { companyId := r.companyId, year := r.year, quarter := r.quarter,
    itemCode := r.itemCode, itemNameTR := r.itemNameTR, itemNameEN := r.itemNameEN,
    value := r.value, statementType := r.statementType,
    financialGroup := r.financialGroup, currency := r.currency,
    createdAt := now, updatedAt := now }

/-- Effect of one staged row under
`INSERT ... ON CONFLICT ("companyId", year, quarter, "itemCode") DO UPDATE`:
on a natural-key conflict, overwrite value, both item names, statement type and
financial group and refresh `"updatedAt"` to `NOW()`, leaving `currency` and
`"createdAt"` untouched; without a conflict, insert the row fresh. -/
def upsertRow (now : Nat) (store : List DbRow) (r : LongRow) : List DbRow :=
  if store.any (fun s => s.natKey = r.natKey) then
    store.map (fun s =>
      if s.natKey = r.natKey then
        { s with value := r.value, itemNameTR := r.itemNameTR,
                 itemNameEN := r.itemNameEN, statementType := r.statementType,
                 financialGroup := r.financialGroup, updatedAt := now }
      else s)
  else store ++ [insertRow now r]

/-- The whole upsert statement applied to the durable store: every staged row
processed against the running state of the table. -/
def apply_upsert (now : Nat) (batch : List LongRow) (store : List DbRow) : List DbRow :=
  batch.foldl (upsertRow now) store

/-- Observable database state around `upsert_financial_data`: the durable
`financial_statements` rows and the transient staging table (`none` = the
uniquely-named `financial_statements_temp_<uuid>` table does not exist). -/
structure DbState where
  durable : List DbRow
  staging : Option (List LongRow)
deriving Repr, DecidableEq

/-- Outcome of one `upsert_financial_data` call: the returned row count and the
resulting database state, or the state left behind by a raised exception. -/
inductive RunResult where
  | ok (rows_affected : Nat) (s : DbState)
  | err (s : DbState)
deriving Repr, DecidableEq

/-- `FinancialDataProcessor.upsert_financial_data` as a state transition.
Control flow of the source: empty batch returns 0 immediately; `df_long.to_sql`
creates and fills the staging table in its own transaction (a staging failure,
`fail_staging`, leaves no staging table and touches nothing durable); then one
`engine.begin()` transaction runs the upsert statement followed by
`DROP TABLE IF EXISTS` of the staging table.  A failure of the upsert statement
(`fail_upsert` for external causes, or intrinsically a batch with duplicate
natural keys, on which `ON CONFLICT DO UPDATE` refuses to affect a row twice)
rolls the transaction back: the durable store is untouched, but the staging
table — created outside this transaction, dropped only after a successful
upsert — survives. -/
def upsert_financial_data (fail_staging fail_upsert : Bool) (now : Nat)
    (batch : List LongRow) (st : DbState) : RunResult :=
  if batch.isEmpty then .ok 0 st
  else if fail_staging then .err st
  else
    let staged : DbState := { st with staging := some batch }
    if fail_upsert ∨ ¬(batch.map LongRow.natKey).Nodup then .err staged
    else .ok batch.length { durable := apply_upsert now batch st.durable, staging := none }

/-- The currency validation of `IsYatirimFinancialAPI.__init__`:
`self.exchange = exchange.upper()`, rejected with `ValueError` unless it is
`TRY` or `USD`.  Only this check is modelled; the session object and the group
registry are I/O state with no bearing on the claims. -/
def api_init_exchange (exchange : String) : Except String String :=
  let ex := String.mk (exchange.data.map Char.toUpper)
  if ex = "TRY" ∨ ex = "USD" then .ok ex
  else .error "Exchange must be TRY or USD"

/-! ## Supporting lemmas -/

lemma mkLongRow_value (cid : Int) (fg : String) (m : MeltRow) :
    (mkLongRow cid fg m).value = m.value := rfl

lemma mkLongRow_currency (cid : Int) (fg : String) (m : MeltRow) :
    (mkLongRow cid fg m).currency = "TRY" := rfl

lemma foldl_digitStep_none (cs : List Char) :
    cs.foldl (fun acc c => acc.bind (fun n =>
      if c.isDigit then some (10 * n + (c.toNat - 48)) else none)) none = none := by
  induction cs with
  | nil => rfl
  | cons c cs ih => exact ih

lemma parseNatChars_digits {cs : List Char} {n : Nat}
    (h : parseNatChars cs = some n) : ∀ c ∈ cs, c.isDigit := by
  have aux : ∀ (l : List Char) (a k : Nat),
      l.foldl (fun acc c => acc.bind (fun n =>
        if c.isDigit then some (10 * n + (c.toNat - 48)) else none)) (some a) = some k →
      ∀ c ∈ l, c.isDigit := by
    intro l
    induction l with
    | nil => intro a k _ c hc; cases hc
    | cons c cs ih =>
      intro a k hfold d hd
      by_cases hc : c.isDigit
      · rcases List.mem_cons.mp hd with rfl | hd2
        · exact hc
        · have : cs.foldl (fun acc c => acc.bind (fun n =>
              if c.isDigit then some (10 * n + (c.toNat - 48)) else none))
              (some (10 * a + (c.toNat - 48))) = some k := by
            simpa [hc] using hfold
          exact ih (10 * a + (c.toNat - 48)) k this d hd2
      · exfalso
        rw [List.foldl_cons] at hfold
        simp only [hc, Option.some_bind, if_false, Bool.false_eq_true,
          foldl_digitStep_none] at hfold
        cases hfold
  unfold parseNatChars at h
  split at h
  · cases h
  · exact aux cs 0 n h

lemma parseIntChars_no_slash {cs : List Char} {z : Int}
    (h : parseIntChars cs = some z) : '/' ∉ cs := by
  unfold parseIntChars at h
  split at h
  · next hhead =>
    cases cs with
    | nil => cases hhead
    | cons c t =>
      have hc : c = '-' := by simpa using hhead
      intro hmem
      rcases List.mem_cons.mp hmem with heq | hmem2
      · rw [hc] at heq; cases heq
      · cases hps : parseNatChars t with
        | none => simp [hps] at h
        | some k =>
          have : ('/' : Char).isDigit := parseNatChars_digits hps _ hmem2
          simp at this
  · intro hmem
    cases hps : parseNatChars cs with
    | none => rw [hps] at h; cases h
    | some k =>
      have : ('/' : Char).isDigit := parseNatChars_digits hps _ hmem
      simp at this

lemma splitCharsOn_no_sep {sep : Char} {b : List Char} (hb : sep ∉ b) :
    splitCharsOn sep b = [b] := by
  induction b with
  | nil => rfl
  | cons c cs ih =>
    have hc : ¬(c = sep) := fun hcc => hb (hcc ▸ List.mem_cons_self c cs)
    have hcs : sep ∉ cs := fun hmem => hb (List.mem_cons_of_mem c hmem)
    simp [splitCharsOn, hc, ih hcs]

lemma splitCharsOn_append {sep : Char} {a : List Char} (b : List Char) (ha : sep ∉ a) :
    splitCharsOn sep (a ++ sep :: b) = a :: splitCharsOn sep b := by
  induction a with
  | nil => simp [splitCharsOn]
  | cons c cs ih =>
    have hc : ¬(c = sep) := fun hcc => ha (hcc ▸ List.mem_cons_self c cs)
    have hcs : sep ∉ cs := fun hmem => ha (List.mem_cons_of_mem c hmem)
    simp [splitCharsOn, hc, ih hcs]

lemma chunksOf4_flatten {α : Type} (l : List α) : (chunksOf4 l).flatten = l := by
  induction l using chunksOf4.induct with
  | case1 l hl => rw [chunksOf4]; simp [hl, List.isEmpty_iff.mp hl]
  | case2 l hl ih =>
    rw [chunksOf4]
    simp only [hl, Bool.false_eq_true, if_false, List.flatten_cons, ih,
      List.take_append_drop]

lemma chunksOf4_length {α : Type} (l : List α) :
    (chunksOf4 l).length = (l.length + 3) / 4 := by
  induction l using chunksOf4.induct with
  | case1 l hl => rw [chunksOf4]; simp [hl, List.isEmpty_iff.mp hl]
  | case2 l hl ih =>
    rw [chunksOf4]
    simp only [hl, Bool.false_eq_true, if_false, List.length_cons, ih, List.length_drop]
    have hne : l ≠ [] := by simpa [List.isEmpty_eq_false] using hl
    have hpos : 0 < l.length := List.length_pos.mpr hne
    omega

lemma chunksOf4_le {α : Type} (l : List α) : ∀ c ∈ chunksOf4 l, c.length ≤ 4 := by
  induction l using chunksOf4.induct with
  | case1 l hl => rw [chunksOf4]; simp [hl]
  | case2 l hl ih =>
    rw [chunksOf4]
    simp only [hl, Bool.false_eq_true, if_false, List.mem_cons]
    rintro c (rfl | hc)
    · exact List.length_take_le 4 l
    · exact ih c hc

lemma pairwise_flatMap_quarters (ys : List Int) (hys : ys.Pairwise (· < ·)) :
    (ys.flatMap (fun y => QUARTERS.map (fun m => (y, m)))).Pairwise periodBefore := by
  induction ys with
  | nil => simp
  | cons y t ih =>
    rcases List.pairwise_cons.mp hys with ⟨hy, ht⟩
    rw [List.flatMap_cons]
    refine List.pairwise_append.mpr ⟨?_, ih ht, ?_⟩
    · simp [QUARTERS, periodBefore]
    · intro a ha b hb
      rcases List.mem_map.mp ha with ⟨m, _, rfl⟩
      rcases List.mem_flatMap.mp hb with ⟨z, hz, hbz⟩
      rcases List.mem_map.mp hbz with ⟨m2, _, rfl⟩
      exact Or.inl (hy z hz)

lemma pairwise_years (s : Int) (n : Nat) :
    ((List.range n).map (fun i => s + Int.ofNat i)).Pairwise (· < ·) := by
  rw [List.pairwise_map]
  refine List.Pairwise.imp ?_ (List.pairwise_lt_range n)
  intro a b h
  exact add_lt_add_left (Int.ofNat_lt.mpr h) s

lemma generate_quarters_length (s e : Int) :
    (generate_quarters s e).length = 4 * (e + 1 - s).toNat := by
  have haux : ∀ ys : List Int,
      (ys.flatMap (fun y => QUARTERS.map (fun m => (y, m)))).length = 4 * ys.length := by
    intro ys
    induction ys with
    | nil => rfl
    | cons a t ih =>
      rw [List.flatMap_cons, List.length_append, ih]
      simp [QUARTERS]
      omega
  unfold generate_quarters
  rw [haux, List.length_map, List.length_range]

/-! ## Claims -/

/-- **C9.** Statement-type classification depends only on the first character
of the item code, via the fixed mapping `1` → balance-sheet assets,
`2` → balance-sheet liabilities, `3` → income statement, `4` → cash flow,
`A` → balance-sheet assets; any other leading character, and the empty item
code, classify as income statement.  In particular `"412000"` classifies as
cash flow, `"105000"` as balance-sheet assets and `"305000"` as income
statement. -/
theorem C9_statement_type_classification (s : String) (hne : s ≠ "") :
    (∀ t : String, t ≠ "" → t.front = s.front →
      determine_statement_type t = determine_statement_type s)
    ∧ (s.front = '1' → determine_statement_type s = "BALANCE_SHEET_ASSETS")
    ∧ (s.front = '2' → determine_statement_type s = "BALANCE_SHEET_LIABILITIES")
    ∧ (s.front = '3' → determine_statement_type s = "INCOME_STATEMENT")
    ∧ (s.front = '4' → determine_statement_type s = "CASH_FLOW")
    ∧ (s.front = 'A' → determine_statement_type s = "BALANCE_SHEET_ASSETS")
    ∧ (s.front ∉ (['1', '2', '3', '4', 'A'] : List Char) →
        determine_statement_type s = "INCOME_STATEMENT")
    ∧ determine_statement_type "" = "INCOME_STATEMENT"
    ∧ determine_statement_type "412000" = "CASH_FLOW"
    ∧ determine_statement_type "105000" = "BALANCE_SHEET_ASSETS"
    ∧ determine_statement_type "305000" = "INCOME_STATEMENT" := by
  refine ⟨?_, ?_, ?_, ?_, ?_, ?_, ?_, by decide, by decide, by decide, by decide⟩
  · intro t ht hf
    simp only [determine_statement_type, ht, hne, if_false, hf]
  · intro h; simp [determine_statement_type, hne, h]
  · intro h; simp [determine_statement_type, hne, h]
  · intro h; simp [determine_statement_type, hne, h]
  · intro h; simp [determine_statement_type, hne, h]
  · intro h; simp [determine_statement_type, hne, h]
  · intro h
    simp only [List.mem_cons, List.not_mem_nil, or_false] at h
    push_neg at h
    obtain ⟨h1, h2, h3, h4, h5⟩ := h
    simp [determine_statement_type, hne, h1, h2, h3, h4, h5]

/-- Witness for C9 at a concrete non-empty item code. -/
theorem C9_statement_type_classification_witness :
    ("512000" : String) ≠ ""
    ∧ (("512000" : String).front ∉ (['1', '2', '3', '4', 'A'] : List Char) →
        determine_statement_type "512000" = "INCOME_STATEMENT")
    ∧ determine_statement_type "412000" = "CASH_FLOW" :=
  ⟨by decide,
   (C9_statement_type_classification "512000" (by decide)).2.2.2.2.2.2.1,
   (C9_statement_type_classification "512000" (by decide)).2.2.2.2.2.2.2.2.1⟩

/-- **C8.** A period label of the form `year/quarter-month` with quarter-month
among {3, 6, 9, 12} parses to `(year, quarter-month // 3)`: `"2023/9"` yields
year 2023 and quarter 3, `"2023/12"` yields quarter 4, `"2023/3"` yields
quarter 1. -/
theorem C8_period_label_parsing (label : String) (yc mc : List Char) (y m : Int)
    (hform : label.data = yc ++ '/' :: mc)
    (hy : parseIntChars yc = some y) (hm : parseIntChars mc = some m)
    (hq : m ∈ QUARTERS) :
    periodYearQuarter label = some (y, Int.fdiv m 3)
    ∧ (m = 3 → Int.fdiv m 3 = 1) ∧ (m = 6 → Int.fdiv m 3 = 2)
    ∧ (m = 9 → Int.fdiv m 3 = 3) ∧ (m = 12 → Int.fdiv m 3 = 4)
    ∧ periodYearQuarter "2023/9" = some (2023, 3)
    ∧ periodYearQuarter "2023/12" = some (2023, 4)
    ∧ periodYearQuarter "2023/3" = some (2023, 1) := by
  have hyc : '/' ∉ yc := parseIntChars_no_slash hy
  have hmc : '/' ∉ mc := parseIntChars_no_slash hm
  have hsplit : splitCharsOn '/' label.data = [yc, mc] := by
    rw [hform, splitCharsOn_append mc hyc, splitCharsOn_no_sep hmc]
  refine ⟨?_, by intro h; subst h; decide, by intro h; subst h; decide,
    by intro h; subst h; decide, by intro h; subst h; decide,
    by decide, by decide, by decide⟩
  simp [periodYearQuarter, parsePeriod, hsplit, hy, hm]

/-- Witness for C8 at the concrete label `"2023/9"`. -/
theorem C8_period_label_parsing_witness :
    ("2023/9" : String).data = "2023".data ++ '/' :: "9".data
    ∧ parseIntChars "2023".data = some 2023
    ∧ parseIntChars "9".data = some 9
    ∧ (9 : Int) ∈ QUARTERS
    ∧ periodYearQuarter "2023/9" = some (2023, Int.fdiv 9 3) :=
  ⟨by decide, by decide, by decide, by decide,
   (C8_period_label_parsing "2023/9" "2023".data "9".data 2023 9
     (by decide) (by decide) (by decide) (by decide)).1⟩

/-- **C10.** The transformer attaches the literal currency `"TRY"` to every
emitted row, regardless of which exchange the fetch client was configured
with: `IsYatirimFinancialAPI.__init__` accepts `exchange = "USD"`, yet every
transformed row carries `currency = "TRY"`. -/
theorem C10_currency_always_try (t : WideTable) (cid : Int) (sym fg : String)
    (out : List LongRow) (h : transform_to_long_format t cid sym fg = some out) :
    api_init_exchange "USD" = .ok "USD" ∧ ∀ r ∈ out, r.currency = "TRY" := by
  refine ⟨rfl, ?_⟩
  intro r hr
  unfold transform_to_long_format at h
  split at h
  · cases h; cases hr
  · split at h
    · cases h
    · split at h
      · cases h
        have hmem := (List.mem_filter.mp hr).1
        rcases List.mem_map.mp hmem with ⟨mrow, _, rfl⟩
        exact mkLongRow_currency cid fg mrow
      · cases h

/-- Witness for C10 at a concrete one-cell wide table. -/
theorem C10_currency_always_try_witness :
    transform_to_long_format
        { cols := ["2020/3"],
          rows := [{ itemCode := "1A", itemDescTr := "t", itemDescEng := "e",
                     cells := [some 5] }] } 1 "GARFA" "XI_29K"
      = some [{ companyId := 1, year := 2020, quarter := 1, itemCode := "1A",
                itemNameTR := "t", itemNameEN := "e", value := some 5,
                statementType := "BALANCE_SHEET_ASSETS", financialGroup := "XI_29K",
                currency := "TRY" }]
    ∧ (api_init_exchange "USD" = .ok "USD"
       ∧ ∀ r ∈ [({ companyId := 1, year := 2020, quarter := 1, itemCode := "1A",
                   itemNameTR := "t", itemNameEN := "e", value := some 5,
                   statementType := "BALANCE_SHEET_ASSETS", financialGroup := "XI_29K",
                   currency := "TRY" } : LongRow)], r.currency = "TRY") :=
  ⟨by decide,
   C10_currency_always_try
     { cols := ["2020/3"],
       rows := [{ itemCode := "1A", itemDescTr := "t", itemDescEng := "e",
                  cells := [some 5] }] } 1 "GARFA" "XI_29K" _ (by decide)⟩

/-- **C3.** For all start_year ≤ end_year, `fetch_financials` enumerates
exactly 4 × (end_year − start_year + 1) (year, quarter-month) periods in
chronological order, partitions them into consecutive chunks of size at most
4, and issues exactly ⌈periods / 4⌉ chunk requests (`(p + 3) / 4` in natural
division). -/
theorem C3_quarter_enumeration_and_chunking (s e : Int) (h : s ≤ e) :
    (generate_quarters s e).length = 4 * (e - s + 1).toNat
    ∧ (generate_quarters s e).Pairwise periodBefore
    ∧ (∀ c ∈ fetch_chunk_requests s e, c.length ≤ 4)
    ∧ (fetch_chunk_requests s e).flatten = generate_quarters s e
    ∧ (fetch_chunk_requests s e).length
        = ((generate_quarters s e).length + 3) / 4 := by
  refine ⟨?_, ?_, chunksOf4_le _, chunksOf4_flatten _, chunksOf4_length _⟩
  · rw [generate_quarters_length]
    omega
  · unfold generate_quarters
    exact pairwise_flatMap_quarters _ (pairwise_years s _)

/-- Witness for C3 on the concrete range 2020–2021. -/
theorem C3_quarter_enumeration_and_chunking_witness :
    (2020 : Int) ≤ 2021
    ∧ ((generate_quarters 2020 2021).length = 4 * ((2021 : Int) - 2020 + 1).toNat
       ∧ (generate_quarters 2020 2021).Pairwise periodBefore
       ∧ (∀ c ∈ fetch_chunk_requests 2020 2021, c.length ≤ 4)
       ∧ (fetch_chunk_requests 2020 2021).flatten = generate_quarters 2020 2021
       ∧ (fetch_chunk_requests 2020 2021).length
           = ((generate_quarters 2020 2021).length + 3) / 4) :=
  ⟨by decide, C3_quarter_enumeration_and_chunking 2020 2021 (by decide)⟩

lemma process_companies_total (companies : List (Int × String))
    (run_company : Int → String → Except String Nat) :
    (process_companies companies run_company).1
      + (process_companies companies run_company).2.length = companies.length := by
  unfold process_companies
  have aux : ∀ (l : List (Int × String)) (acc : Nat × List (String × String)),
      (l.foldl (fun acc c =>
        match run_company c.1 c.2 with
        | .ok _ => (acc.1 + 1, acc.2)
        | .error e => (acc.1, acc.2 ++ [(c.2, e)])) acc).1
      + (l.foldl (fun acc c =>
        match run_company c.1 c.2 with
        | .ok _ => (acc.1 + 1, acc.2)
        | .error e => (acc.1, acc.2 ++ [(c.2, e)])) acc).2.length
      = acc.1 + acc.2.length + l.length := by
    intro l
    induction l with
    | nil => intro acc; simp
    | cons c t ih =>
      intro acc
      rw [List.foldl_cons]
      cases hrun : run_company c.1 c.2 with
      | ok n => rw [ih]; simp; omega
      | error e => rw [ih]; simp; omega
  rw [aux]
  simp

/-- **C7.** When every chunk of a company's fetch yields no data (failure
flag, empty payload, or exhausted transport retries — all embedded as `none` —
or a dataframe with no rows), `fetch_financials` fails with a
"no financial data" error naming the company symbol and the taxonomy code; and
the company loop of `main` catches each failure at the loop boundary, so every
company in the list contributes exactly one outcome (success or recorded
failure) — subsequent companies are always processed. -/
theorem C7_no_data_failure (symbol fg : String) (results : List (Option WideTable))
    (h : ∀ o ∈ results, ∀ t : WideTable, o = some t → t.rows = []) :
    fetch_financials symbol fg results
        = .error ("No financial data found for " ++ symbol ++ " (" ++ fg ++ ")")
    ∧ ∀ (companies : List (Int × String))
        (run_company : Int → String → Except String Nat),
        (process_companies companies run_company).1
          + (process_companies companies run_company).2.length
          = companies.length := by
  constructor
  · have hempty : ((results.filterMap id).filter (fun t => !t.rows.isEmpty)) = [] := by
      refine List.filter_eq_nil_iff.mpr ?_
      intro t ht
      rcases List.mem_filterMap.mp ht with ⟨o, ho, hid⟩
      have hrows : t.rows = [] := h o ho t hid
      simp [hrows]
    simp [fetch_financials, hempty]
  · intro companies run_company
    exact process_companies_total companies run_company

/-- Witness for C7: one failed chunk and one empty-payload chunk. -/
theorem C7_no_data_failure_witness :
    (∀ o ∈ ([none, some { cols := ["2020/3"], rows := [] }] :
        List (Option WideTable)), ∀ t : WideTable, o = some t → t.rows = [])
    ∧ fetch_financials "GARFA" "XI_29K" [none, some { cols := ["2020/3"], rows := [] }]
        = .error ("No financial data found for " ++ "GARFA" ++ " (" ++ "XI_29K" ++ ")") :=
  ⟨by rintro o ho t rfl; simp at ho; simp [ho],
   (C7_no_data_failure "GARFA" "XI_29K" [none, some { cols := ["2020/3"], rows := [] }]
     (by rintro o ho t rfl; simp at ho; simp [ho])).1⟩

lemma dropNullCols_no_allnull (u : WideTable) :
    ∀ j, j < (dropNullCols u).cols.length →
      ∃ r ∈ (dropNullCols u).rows, (r.cells.getD j none).isSome := by
  intro j hj
  have hlen : j < (keptColIdxs u).length := by
    simpa [dropNullCols] using hj
  have hkept : (keptColIdxs u).get ⟨j, hlen⟩ ∈ keptColIdxs u :=
    (keptColIdxs u).get_mem j hlen
  have hprop : u.rows.any
      (fun r => (r.cells.getD ((keptColIdxs u).get ⟨j, hlen⟩) none).isSome) = true :=
    (List.mem_filter.mp hkept).2
  rcases List.any_eq_true.mp hprop with ⟨r, hr, hsome⟩
  refine ⟨{ r with cells := (keptColIdxs u).map (fun j2 => r.cells.getD j2 none) },
    List.mem_map.mpr ⟨r, hr, rfl⟩, ?_⟩
  have : ((keptColIdxs u).map (fun j2 => r.cells.getD j2 none)).getD j none
      = r.cells.getD ((keptColIdxs u).get ⟨j, hlen⟩) none := by
    rw [List.getD_eq_getElem _ _ (by simpa using hlen), List.getElem_map]
    rfl
  rw [this]
  exact hsome

/-- **C6 (amended).** When two or more chunks are merged, every column of the
result has at least one non-null cell — entirely-null columns are dropped; a
single chunk, however, is returned unchanged by `_merge_chunks`, so its
entirely-null columns survive (see the counterexample). -/
theorem C6_allnull_columns_dropped_amended (dfs : List WideTable) (m : WideTable)
    (h2 : 2 ≤ dfs.length) (hm : merge_chunks dfs = some m) :
    (∀ j, j < m.cols.length → ∃ r ∈ m.rows, (r.cells.getD j none).isSome)
    ∧ ∀ t : WideTable, merge_chunks [t] = some t := by
  refine ⟨?_, fun t => rfl⟩
  match dfs, h2 with
  | a :: b :: rest, _ =>
    have : m = dropNullCols ((b :: rest).foldl outerMerge a) := by
      have := hm.symm
      simpa [merge_chunks] using this
    rw [this]
    exact dropNullCols_no_allnull _

/-- **C6 counterexample.** A fetch that yields exactly one chunk is returned
unchanged by `_merge_chunks`: the single-chunk table below has the
period column `"2020/3"` entirely null across all rows, yet that column is
still present in the merge result, so the claimed null-column drop does not
happen in the single-chunk case. -/
theorem C6_counterexample :
    merge_chunks [{ cols := ["2020/3"],
                    rows := [{ itemCode := "1A", itemDescTr := "t",
                               itemDescEng := "e", cells := [none] }] }]
      = some { cols := ["2020/3"],
               rows := [{ itemCode := "1A", itemDescTr := "t",
                          itemDescEng := "e", cells := [none] }] }
    ∧ (∀ r ∈ ({ cols := ["2020/3"],
                rows := [{ itemCode := "1A", itemDescTr := "t",
                           itemDescEng := "e", cells := [none] }] } : WideTable).rows,
        r.cells.getD 0 none = none)
    ∧ "2020/3" ∈ ({ cols := ["2020/3"],
                    rows := [{ itemCode := "1A", itemDescTr := "t",
                               itemDescEng := "e", cells := [none] }] } : WideTable).cols := by
  refine ⟨rfl, by decide, by decide⟩

/-- Witness for the amended C6 at a concrete two-chunk merge. -/
theorem C6_allnull_columns_dropped_amended_witness :
    2 ≤ ([{ cols := ["2020/3"],
            rows := [{ itemCode := "1A", itemDescTr := "t", itemDescEng := "e",
                       cells := [some 5] }] },
          { cols := ["2020/6"],
            rows := [{ itemCode := "1A", itemDescTr := "t", itemDescEng := "e",
                       cells := [none] }] }] : List WideTable).length
    ∧ merge_chunks
        [{ cols := ["2020/3"],
           rows := [{ itemCode := "1A", itemDescTr := "t", itemDescEng := "e",
                      cells := [some 5] }] },
         { cols := ["2020/6"],
           rows := [{ itemCode := "1A", itemDescTr := "t", itemDescEng := "e",
                      cells := [none] }] }]
      = some { cols := ["2020/3"],
               rows := [{ itemCode := "1A", itemDescTr := "t", itemDescEng := "e",
                          cells := [some 5] }] }
    ∧ (∀ j, j < ({ cols := ["2020/3"],
                   rows := [{ itemCode := "1A", itemDescTr := "t", itemDescEng := "e",
                              cells := [some 5] }] } : WideTable).cols.length →
        ∃ r ∈ ({ cols := ["2020/3"],
                 rows := [{ itemCode := "1A", itemDescTr := "t", itemDescEng := "e",
                            cells := [some 5] }] } : WideTable).rows,
          (r.cells.getD j none).isSome) :=
  ⟨by decide, by decide,
   (C6_allnull_columns_dropped_amended
     [{ cols := ["2020/3"],
        rows := [{ itemCode := "1A", itemDescTr := "t", itemDescEng := "e",
                   cells := [some 5] }] },
      { cols := ["2020/6"],
        rows := [{ itemCode := "1A", itemDescTr := "t", itemDescEng := "e",
                   cells := [none] }] }]
     { cols := ["2020/3"],
       rows := [{ itemCode := "1A", itemDescTr := "t", itemDescEng := "e",
                  cells := [some 5] }] }
     (by decide) (by decide)).1⟩

lemma outerMerge_left_branch_key (t2 : WideTable) (r : WideRow) :
    (match findByKey t2 r.key with
      | some r2 => { r with cells := r.cells ++ r2.cells }
      | none => { r with cells := r.cells ++ List.replicate t2.cols.length none }).key
      = r.key := by
  cases findByKey t2 r.key <;> rfl

lemma dropNullCols_preserves_keys (u : WideTable) :
    ∀ r ∈ u.rows, ∃ r2 ∈ (dropNullCols u).rows, r2.key = r.key :=
  fun r hr => ⟨_, List.mem_map.mpr ⟨r, hr, rfl⟩, rfl⟩

lemma findByKey_some {t : WideTable} {k : String × String × String} {r1 : WideRow}
    (h : findByKey t k = some r1) : r1 ∈ t.rows ∧ r1.key = k := by
  unfold findByKey at h
  refine ⟨List.mem_of_find?_eq_some h, ?_⟩
  have h2 := List.find?_some h
  simpa using h2

/-- **C5.** For two wide tables sharing the item-identifying columns, merging
via `_merge_chunks` never drops an item: every item row of either input is
represented (by join key) in the merged output, and an item absent from the
other table has its cells for that table's periods filled with nulls by the
outer join. -/
theorem C5_outer_join_never_drops_items (t1 t2 m : WideTable)
    (_h1 : (t1.rows.map WideRow.key).Nodup) (_h2 : (t2.rows.map WideRow.key).Nodup)
    (hm : merge_chunks [t1, t2] = some m) :
    (∀ r ∈ t1.rows, ∃ r2 ∈ m.rows, r2.key = r.key)
    ∧ (∀ r ∈ t2.rows, ∃ r2 ∈ m.rows, r2.key = r.key)
    ∧ (∀ r ∈ t1.rows, findByKey t2 r.key = none →
        ({ r with cells := r.cells ++ List.replicate t2.cols.length none } : WideRow)
          ∈ (outerMerge t1 t2).rows)
    ∧ (∀ r ∈ t2.rows, findByKey t1 r.key = none →
        ({ r with cells := List.replicate t1.cols.length none ++ r.cells } : WideRow)
          ∈ (outerMerge t1 t2).rows) := by
  have hmm : dropNullCols (outerMerge t1 t2) = m := by
    simpa [merge_chunks] using hm
  subst hmm
  have hleft : ∀ r ∈ t1.rows, ∃ ru ∈ (outerMerge t1 t2).rows, ru.key = r.key :=
    fun r hr =>
      ⟨_, List.mem_append_left _ (List.mem_map.mpr ⟨r, hr, rfl⟩),
       outerMerge_left_branch_key t2 r⟩
  have hright : ∀ r ∈ t2.rows, ∃ ru ∈ (outerMerge t1 t2).rows, ru.key = r.key := by
    intro r hr
    cases hfind : findByKey t1 r.key with
    | none =>
      refine ⟨_, List.mem_append_right _
        (List.mem_map.mpr ⟨r, List.mem_filter.mpr ⟨hr, by rw [hfind]; rfl⟩, rfl⟩), rfl⟩
    | some r1 =>
      obtain ⟨hr1, hk1⟩ := findByKey_some hfind
      rcases hleft r1 hr1 with ⟨ru, hru, hk⟩
      exact ⟨ru, hru, hk.trans hk1⟩
  refine ⟨?_, ?_, ?_, ?_⟩
  · intro r hr
    rcases hleft r hr with ⟨ru, hru, hk⟩
    rcases dropNullCols_preserves_keys _ ru hru with ⟨r2, hr2, hk2⟩
    exact ⟨r2, hr2, hk2.trans hk⟩
  · intro r hr
    rcases hright r hr with ⟨ru, hru, hk⟩
    rcases dropNullCols_preserves_keys _ ru hru with ⟨r2, hr2, hk2⟩
    exact ⟨r2, hr2, hk2.trans hk⟩
  · intro r hr hnone
    refine List.mem_append_left _ (List.mem_map.mpr ⟨r, hr, ?_⟩)
    simp only [hnone]
  · intro r hr hnone
    exact List.mem_append_right _
      (List.mem_map.mpr ⟨r, List.mem_filter.mpr ⟨hr, by rw [hnone]; rfl⟩, rfl⟩)

/-- Witness for C5 at two concrete single-item chunks with different items. -/
theorem C5_outer_join_never_drops_items_witness :
    (([{ itemCode := "1A", itemDescTr := "t", itemDescEng := "e",
         cells := [some 1] }] : List WideRow).map WideRow.key).Nodup
    ∧ (([{ itemCode := "2B", itemDescTr := "u", itemDescEng := "f",
           cells := [some 2] }] : List WideRow).map WideRow.key).Nodup
    ∧ merge_chunks
        [{ cols := ["2020/3"],
           rows := [{ itemCode := "1A", itemDescTr := "t", itemDescEng := "e",
                      cells := [some 1] }] },
         { cols := ["2020/6"],
           rows := [{ itemCode := "2B", itemDescTr := "u", itemDescEng := "f",
                      cells := [some 2] }] }]
      = some { cols := ["2020/3", "2020/6"],
               rows := [{ itemCode := "1A", itemDescTr := "t", itemDescEng := "e",
                          cells := [some 1, none] },
                        { itemCode := "2B", itemDescTr := "u", itemDescEng := "f",
                          cells := [none, some 2] }] }
    ∧ (∀ r ∈ ({ cols := ["2020/3"],
                rows := [{ itemCode := "1A", itemDescTr := "t", itemDescEng := "e",
                           cells := [some 1] }] } : WideTable).rows,
        ∃ r2 ∈ ({ cols := ["2020/3", "2020/6"],
                  rows := [{ itemCode := "1A", itemDescTr := "t", itemDescEng := "e",
                             cells := [some 1, none] },
                           { itemCode := "2B", itemDescTr := "u", itemDescEng := "f",
                             cells := [none, some 2] }] } : WideTable).rows,
          r2.key = r.key) :=
  ⟨by decide, by decide, by decide,
   (C5_outer_join_never_drops_items
     { cols := ["2020/3"],
       rows := [{ itemCode := "1A", itemDescTr := "t", itemDescEng := "e",
                  cells := [some 1] }] }
     { cols := ["2020/6"],
       rows := [{ itemCode := "2B", itemDescTr := "u", itemDescEng := "f",
                  cells := [some 2] }] }
     { cols := ["2020/3", "2020/6"],
       rows := [{ itemCode := "1A", itemDescTr := "t", itemDescEng := "e",
                  cells := [some 1, none] },
                { itemCode := "2B", itemDescTr := "u", itemDescEng := "f",
                  cells := [none, some 2] }] }
     (by decide) (by decide) (by decide)).1⟩

lemma toMeltRow_value (t : WideTable) (j : Nat) (r : WideRow) :
    (toMeltRow t j r).value = r.cells.getD j none := rfl

lemma per_col_filter (t : WideTable) (cid : Int) (fg : String) (j : Nat)
    (rs : List WideRow) :
    ((rs.map (fun r => mkLongRow cid fg (toMeltRow t j r))).filter
        (fun r => r.value.isSome))
      = ((rs.filter (fun r => (r.cells.getD j none).isSome)).map
          (fun r => specCellRow t cid fg (j, r))) := by
  induction rs with
  | nil => rfl
  | cons r rs ih =>
    by_cases h : (r.cells[j]?.getD none).isSome
    · simp [List.filter_cons, mkLongRow_value, toMeltRow_value, h, ih, specCellRow]
    · simp [List.filter_cons, mkLongRow_value, toMeltRow_value, h, ih]

/-- **C2.** On every well-formed merged wide table (non-empty row list, every
period label parsable — both guaranteed by `_merge_chunks` output), the
long-format transform is a bijection between non-null cells under
period-labeled columns and emitted rows: the output is exactly the column-major
enumeration of non-null cells, each mapped to its long row (so the `i`-th
output row corresponds to the `i`-th non-null cell, lengths agree), and every
emitted row has a non-null value and carries the full natural-key metadata. -/
theorem C2_transform_bijection (t : WideTable) (cid : Int) (sym fg : String)
    (hrows : t.rows ≠ [])
    (hparse : ∀ j ∈ quarterColIdxs t, (parsePeriod (t.cols.getD j "")).isSome) :
    transform_to_long_format t cid sym fg
        = some ((specNonNullCells t).map (specCellRow t cid fg))
    ∧ (∀ out, transform_to_long_format t cid sym fg = some out →
        out.length = (specNonNullCells t).length)
    ∧ ∀ r ∈ (specNonNullCells t).map (specCellRow t cid fg),
        r.value.isSome ∧ r.companyId = cid ∧ r.financialGroup = fg := by
  have key : ∀ (js : List Nat),
      ((js.flatMap (fun j => t.rows.map (toMeltRow t j))).map (mkLongRow cid fg)).filter
          (fun r => r.value.isSome)
        = (js.flatMap (fun j =>
            (t.rows.filter (fun r => (r.cells.getD j none).isSome)).map
              (fun r => (j, r)))).map (specCellRow t cid fg) := by
    intro js
    induction js with
    | nil => rfl
    | cons j js ih =>
      simp only [List.flatMap_cons, List.map_append, List.filter_append, ih,
        List.map_map, Function.comp]
      congr 1
      exact per_col_filter t cid fg j t.rows
  have hmain : transform_to_long_format t cid sym fg
      = some ((specNonNullCells t).map (specCellRow t cid fg)) := by
    unfold transform_to_long_format
    by_cases hq : (quarterColIdxs t).isEmpty
    · rw [if_pos hq]
      have : quarterColIdxs t = [] := List.isEmpty_iff.mp hq
      simp [specNonNullCells, this]
    · rw [if_neg hq, if_neg (by simpa [List.isEmpty_eq_false] using hrows)]
      rw [if_pos (List.all_eq_true.mpr (fun j hj => hparse j hj))]
      rw [meltTable, key]
      rfl
  refine ⟨hmain, ?_, ?_⟩
  · intro out hout
    rw [hmain] at hout
    cases hout
    exact List.length_map _ _
  · intro r hr
    rcases List.mem_map.mp hr with ⟨⟨j, w⟩, hcell, rfl⟩
    rcases List.mem_flatMap.mp hcell with ⟨j2, _, hj2⟩
    rcases List.mem_map.mp hj2 with ⟨w2, hw2, heq⟩
    have hj : j2 = j := congrArg Prod.fst heq
    have hw : w2 = w := congrArg Prod.snd heq
    subst hj; subst hw
    exact ⟨(List.mem_filter.mp hw2).2, rfl, rfl⟩

/-- Witness for C2 at a concrete 2-column, 2-row wide table with two null and
two non-null cells. -/
theorem C2_transform_bijection_witness :
    ({ cols := ["2020/3", "2020/6"],
       rows := [{ itemCode := "1A", itemDescTr := "t", itemDescEng := "e",
                  cells := [some 5, none] },
                { itemCode := "305", itemDescTr := "u", itemDescEng := "f",
                  cells := [none, some 7] }] } : WideTable).rows ≠ []
    ∧ (∀ j ∈ quarterColIdxs
        { cols := ["2020/3", "2020/6"],
          rows := [{ itemCode := "1A", itemDescTr := "t", itemDescEng := "e",
                     cells := [some 5, none] },
                   { itemCode := "305", itemDescTr := "u", itemDescEng := "f",
                     cells := [none, some 7] }] },
        (parsePeriod
          (({ cols := ["2020/3", "2020/6"],
              rows := [{ itemCode := "1A", itemDescTr := "t", itemDescEng := "e",
                         cells := [some 5, none] },
                       { itemCode := "305", itemDescTr := "u", itemDescEng := "f",
                         cells := [none, some 7] }] } : WideTable).cols.getD j "")).isSome)
    ∧ transform_to_long_format
        { cols := ["2020/3", "2020/6"],
          rows := [{ itemCode := "1A", itemDescTr := "t", itemDescEng := "e",
                     cells := [some 5, none] },
                   { itemCode := "305", itemDescTr := "u", itemDescEng := "f",
                     cells := [none, some 7] }] } 1 "SYM" "XI_29"
      = some ((specNonNullCells
          { cols := ["2020/3", "2020/6"],
            rows := [{ itemCode := "1A", itemDescTr := "t", itemDescEng := "e",
                       cells := [some 5, none] },
                     { itemCode := "305", itemDescTr := "u", itemDescEng := "f",
                       cells := [none, some 7] }] }).map
          (specCellRow
            { cols := ["2020/3", "2020/6"],
              rows := [{ itemCode := "1A", itemDescTr := "t", itemDescEng := "e",
                         cells := [some 5, none] },
                       { itemCode := "305", itemDescTr := "u", itemDescEng := "f",
                         cells := [none, some 7] }] } 1 "XI_29")) :=
  ⟨by decide, by decide,
   (C2_transform_bijection
     { cols := ["2020/3", "2020/6"],
       rows := [{ itemCode := "1A", itemDescTr := "t", itemDescEng := "e",
                  cells := [some 5, none] },
                { itemCode := "305", itemDescTr := "u", itemDescEng := "f",
                  cells := [none, some 7] }] } 1 "SYM" "XI_29"
     (by decide) (by decide)).1⟩

lemma upsertRow_natKey_map (now : Nat) (store : List DbRow) (r : LongRow) :
    ((upsertRow now store r).map DbRow.natKey)
      = if store.any (fun s => s.natKey = r.natKey) then store.map DbRow.natKey
        else store.map DbRow.natKey ++ [r.natKey] := by
  unfold upsertRow
  by_cases h : store.any (fun s => s.natKey = r.natKey)
  · rw [if_pos h, if_pos h, List.map_map]
    apply List.map_congr_left
    intro s _
    by_cases hk : s.natKey = r.natKey
    · simp only [Function.comp_apply, if_pos hk]
      rfl
    · simp only [Function.comp_apply, if_neg hk]
  · rw [if_neg h, if_neg h, List.map_append]
    rfl

lemma upsertRow_nodup (now : Nat) (store : List DbRow) (r : LongRow)
    (h : (store.map DbRow.natKey).Nodup) :
    ((upsertRow now store r).map DbRow.natKey).Nodup := by
  rw [upsertRow_natKey_map]
  by_cases hc : store.any (fun s => s.natKey = r.natKey)
  · rw [if_pos hc]; exact h
  · rw [if_neg hc]
    have hnotin : r.natKey ∉ store.map DbRow.natKey := by
      intro hmem
      rcases List.mem_map.mp hmem with ⟨s, hs, hk⟩
      exact (by simpa [List.any_eq_false] using hc : ∀ s ∈ store, ¬s.natKey = r.natKey)
        s hs hk
    simp [List.nodup_append, h, hnotin]

lemma apply_upsert_nodup (now : Nat) (batch : List LongRow) (store : List DbRow)
    (h : (store.map DbRow.natKey).Nodup) :
    ((apply_upsert now batch store).map DbRow.natKey).Nodup := by
  induction batch generalizing store with
  | nil => exact h
  | cons r rs ih =>
    have : apply_upsert now (r :: rs) store = apply_upsert now rs (upsertRow now store r) :=
      rfl
    rw [this]
    exact ih _ (upsertRow_nodup now store r h)

/-- **C1.** The durable store keeps at most one row per natural key
(company, year, quarter, item code): upserting any batch into a store with
unique keys leaves the keys unique; on the success path
`upsert_financial_data` applies exactly this store transformation; and
upserting a second row with an already-present natural key at a strictly later
time leaves exactly one row under that key, carrying the second row's value,
item names, statement type and taxonomy code, with the update timestamp
refreshed to the later instant and the creation timestamp of the first write
preserved. -/
theorem C1_upsert_natural_key (store : List DbRow) (r1 r2 : LongRow) (t1 t2 : Nat)
    (hstore : (store.map DbRow.natKey).Nodup)
    (hkey : r1.natKey = r2.natKey)
    (hfresh : ∀ s ∈ store, s.natKey ≠ r1.natKey)
    (ht : t1 < t2) :
    (∀ now batch, ((apply_upsert now batch store).map DbRow.natKey).Nodup)
    ∧ (∀ (now : Nat) (batch : List LongRow) (st : DbState), batch ≠ [] →
        (batch.map LongRow.natKey).Nodup →
        upsert_financial_data false false now batch st
          = .ok batch.length { durable := apply_upsert now batch st.durable,
                               staging := none })
    ∧ ((apply_upsert t2 [r2] (apply_upsert t1 [r1] store)).filter
          (fun s => s.natKey = r2.natKey))
        = [{ companyId := r2.companyId, year := r2.year, quarter := r2.quarter,
             itemCode := r2.itemCode, itemNameTR := r2.itemNameTR,
             itemNameEN := r2.itemNameEN, value := r2.value,
             statementType := r2.statementType, financialGroup := r2.financialGroup,
             currency := r1.currency, createdAt := t1, updatedAt := t2 }]
    ∧ t1 < t2 := by
  have hc : r1.companyId = r2.companyId := congrArg (fun k => k.1) hkey
  have hy : r1.year = r2.year := congrArg (fun k => k.2.1) hkey
  have hq : r1.quarter = r2.quarter := congrArg (fun k => k.2.2.1) hkey
  have hic : r1.itemCode = r2.itemCode := congrArg (fun k => k.2.2.2) hkey
  refine ⟨fun now batch => apply_upsert_nodup now batch store hstore, ?_, ?_, ht⟩
  · intro now batch st hne hnodup
    have h1 : batch.isEmpty = false := List.isEmpty_eq_false.mpr hne
    simp [upsert_financial_data, h1, hnodup]
  · have hany1 : store.any (fun s => s.natKey = r1.natKey) = false := by
      simp only [List.any_eq_false, decide_eq_true_eq]
      exact hfresh
    have e1 : apply_upsert t1 [r1] store = store ++ [insertRow t1 r1] := by
      simp [apply_upsert, upsertRow, hany1]
    have hik : (insertRow t1 r1).natKey = r2.natKey := by
      rw [← hkey]; rfl
    have hany2 : (store ++ [insertRow t1 r1]).any
        (fun s => s.natKey = r2.natKey) = true :=
      List.any_eq_true.mpr ⟨insertRow t1 r1, by simp, by simp [hik]⟩
    have e2 : apply_upsert t2 [r2] (store ++ [insertRow t1 r1])
        = (store ++ [insertRow t1 r1]).map (fun s =>
            if s.natKey = r2.natKey then
              { s with value := r2.value, itemNameTR := r2.itemNameTR,
                       itemNameEN := r2.itemNameEN, statementType := r2.statementType,
                       financialGroup := r2.financialGroup, updatedAt := t2 }
            else s) := by
      simp [apply_upsert, upsertRow, hany2]
    rw [e1, e2, List.map_append, List.filter_append]
    have hstorepart : ((store.map (fun s =>
        if s.natKey = r2.natKey then
          { s with value := r2.value, itemNameTR := r2.itemNameTR,
                   itemNameEN := r2.itemNameEN, statementType := r2.statementType,
                   financialGroup := r2.financialGroup, updatedAt := t2 }
        else s)).filter (fun s => s.natKey = r2.natKey)) = [] := by
      refine List.filter_eq_nil_iff.mpr ?_
      intro s hs
      rcases List.mem_map.mp hs with ⟨s0, hs0, rfl⟩
      have hne : ¬s0.natKey = r2.natKey := by
        rw [← hkey]; exact hfresh s0 hs0
      simp [hne]
    rw [hstorepart]
    simp only [List.map_cons, List.map_nil, List.nil_append, if_pos hik]
    rw [List.filter_cons_of_pos (by exact decide_eq_true hik)]
    simp only [List.filter_nil]
    congr 1
    simp [insertRow, DbRow.mk.injEq, hc, hy, hq, hic]

/-- Witness for C1: a fresh insert followed by an upsert of the same natural
key with a different value, at strictly increasing instants. -/
theorem C1_upsert_natural_key_witness :
    ((([] : List DbRow).map DbRow.natKey).Nodup
     ∧ ({ companyId := 1, year := 2020, quarter := 1, itemCode := "1A",
          itemNameTR := "t", itemNameEN := "e", value := some 5,
          statementType := "BALANCE_SHEET_ASSETS", financialGroup := "XI_29",
          currency := "TRY" } : LongRow).natKey
        = ({ companyId := 1, year := 2020, quarter := 1, itemCode := "1A",
             itemNameTR := "t2", itemNameEN := "e2", value := some 9,
             statementType := "CASH_FLOW", financialGroup := "UFRS",
             currency := "TRY" } : LongRow).natKey
     ∧ (10 : Nat) < 20)
    ∧ ((apply_upsert 20
          [{ companyId := 1, year := 2020, quarter := 1, itemCode := "1A",
             itemNameTR := "t2", itemNameEN := "e2", value := some 9,
             statementType := "CASH_FLOW", financialGroup := "UFRS",
             currency := "TRY" }]
          (apply_upsert 10
            [{ companyId := 1, year := 2020, quarter := 1, itemCode := "1A",
               itemNameTR := "t", itemNameEN := "e", value := some 5,
               statementType := "BALANCE_SHEET_ASSETS", financialGroup := "XI_29",
               currency := "TRY" }] [])).filter
        (fun s => s.natKey
          = ({ companyId := 1, year := 2020, quarter := 1, itemCode := "1A",
               itemNameTR := "t2", itemNameEN := "e2", value := some 9,
               statementType := "CASH_FLOW", financialGroup := "UFRS",
               currency := "TRY" } : LongRow).natKey))
      = [{ companyId := 1, year := 2020, quarter := 1, itemCode := "1A",
           itemNameTR := "t2", itemNameEN := "e2", value := some 9,
           statementType := "CASH_FLOW", financialGroup := "UFRS",
           currency := "TRY", createdAt := 10, updatedAt := 20 }] :=
  ⟨⟨by decide, by decide, by decide⟩,
   (C1_upsert_natural_key []
     { companyId := 1, year := 2020, quarter := 1, itemCode := "1A",
       itemNameTR := "t", itemNameEN := "e", value := some 5,
       statementType := "BALANCE_SHEET_ASSETS", financialGroup := "XI_29",
       currency := "TRY" }
     { companyId := 1, year := 2020, quarter := 1, itemCode := "1A",
       itemNameTR := "t2", itemNameEN := "e2", value := some 9,
       statementType := "CASH_FLOW", financialGroup := "UFRS",
       currency := "TRY" } 10 20
     (by decide) (by decide) (by decide) (by decide)).2.2.1⟩

/-- **C4 (amended).** Any failure during staging or during the upsert statement
aborts the batch transactionally — the durable store is unchanged on every
error exit, so no partial rows of the batch become observable — and the staging
table is dropped on the success path; but the cleanup is not guaranteed on
every exit path: a failure of the upsert statement rolls back the transaction
that contains the `DROP TABLE`, leaving the transient staging table in place. -/
theorem C4_atomicity_and_staging_cleanup (fs fu : Bool) (now : Nat)
    (batch : List LongRow) (st : DbState) :
    (∀ s, upsert_financial_data fs fu now batch st = .err s → s.durable = st.durable)
    ∧ (∀ n s, upsert_financial_data fs fu now batch st = .ok n s →
        batch = [] ∨ (s.staging = none ∧ s.durable = apply_upsert now batch st.durable))
    ∧ (batch ≠ [] → fs = false → fu = true →
        upsert_financial_data fs fu now batch st
          = .err { durable := st.durable, staging := some batch }) := by
  refine ⟨?_, ?_, ?_⟩
  · intro s hs
    unfold upsert_financial_data at hs
    split at hs
    · cases hs
    · split at hs
      · cases hs
        rfl
      · split at hs
        · cases hs
          rfl
        · cases hs
  · intro n s hs
    unfold upsert_financial_data at hs
    split at hs
    · next hempty =>
      cases hs
      exact Or.inl (List.isEmpty_iff.mp hempty)
    · split at hs
      · cases hs
      · split at hs
        · cases hs
        · cases hs
          exact Or.inr ⟨rfl, rfl⟩
  · intro hne hfs hfu
    subst hfs; subst hfu
    unfold upsert_financial_data
    rw [if_neg (by simp [List.isEmpty_eq_false, hne]), if_neg (by simp)]
    rw [if_pos (by simp)]

/-- **C4 counterexample.** A failure of the upsert statement leaves the
staging table behind: with a one-row batch and a failing upsert, the run ends
in an error state whose durable store is untouched but whose staging table
still exists — the claimed cleanup on every exit path does not happen. -/
theorem C4_staging_cleanup_counterexample :
    upsert_financial_data false true 20
        [{ companyId := 1, year := 2020, quarter := 1, itemCode := "1A",
           itemNameTR := "t", itemNameEN := "e", value := some 5,
           statementType := "BALANCE_SHEET_ASSETS", financialGroup := "XI_29",
           currency := "TRY" }] { durable := [], staging := none }
      = .err { durable := [],
               staging := some
                 [{ companyId := 1, year := 2020, quarter := 1, itemCode := "1A",
                    itemNameTR := "t", itemNameEN := "e", value := some 5,
                    statementType := "BALANCE_SHEET_ASSETS", financialGroup := "XI_29",
                    currency := "TRY" }] }
    ∧ (some
        [({ companyId := 1, year := 2020, quarter := 1, itemCode := "1A",
            itemNameTR := "t", itemNameEN := "e", value := some 5,
            statementType := "BALANCE_SHEET_ASSETS", financialGroup := "XI_29",
            currency := "TRY" } : LongRow)] : Option (List LongRow)) ≠ none := by
  exact ⟨by decide, by decide⟩

/-- Witness for the amended C4 on a concrete one-row batch. -/
theorem C4_atomicity_and_staging_cleanup_witness :
    (([({ companyId := 1, year := 2020, quarter := 1, itemCode := "1A",
          itemNameTR := "t", itemNameEN := "e", value := some 5,
          statementType := "BALANCE_SHEET_ASSETS", financialGroup := "XI_29",
          currency := "TRY" } : LongRow)] : List LongRow) ≠ [])
    ∧ (([({ companyId := 1, year := 2020, quarter := 1, itemCode := "1A",
            itemNameTR := "t", itemNameEN := "e", value := some 5,
            statementType := "BALANCE_SHEET_ASSETS", financialGroup := "XI_29",
            currency := "TRY" } : LongRow)] : List LongRow) ≠ [] →
        (false : Bool) = false → (true : Bool) = true →
        upsert_financial_data false true 20
            [{ companyId := 1, year := 2020, quarter := 1, itemCode := "1A",
               itemNameTR := "t", itemNameEN := "e", value := some 5,
               statementType := "BALANCE_SHEET_ASSETS", financialGroup := "XI_29",
               currency := "TRY" }] { durable := [], staging := none }
          = .err { durable := ({ durable := [], staging := none } : DbState).durable,
                   staging := some
                     [{ companyId := 1, year := 2020, quarter := 1, itemCode := "1A",
                        itemNameTR := "t", itemNameEN := "e", value := some 5,
                        statementType := "BALANCE_SHEET_ASSETS",
                        financialGroup := "XI_29", currency := "TRY" }] }) :=
  ⟨by decide,
   (C4_atomicity_and_staging_cleanup false true 20
     [{ companyId := 1, year := 2020, quarter := 1, itemCode := "1A",
        itemNameTR := "t", itemNameEN := "e", value := some 5,
        statementType := "BALANCE_SHEET_ASSETS", financialGroup := "XI_29",
        currency := "TRY" }] { durable := [], staging := none }).2.2⟩
